import Mathlib

/-!
Verification of the s3control sweep module
(`internal/service/s3control/sweep.go`) of the terraform-provider-aws
repository: region gating, page-loop discovery, per-item Sweepable
building, error aggregation and sweep orchestration.

Go strings are modelled as Lean `String`; Go `error` values as an
inductive `GoErr`; a `*multierror.Error` accumulator as a `List GoErr`
together with `errorOrNil`.  Parts of the repository that the sweep
file calls but that are outside the given source (the
`internal/sweep` orchestrator, the resource-identifier codec helpers
and the test-sweeper harness) are modelled from the specification and
marked as such in their doc comments.
-/

/-- Region constant `names.USWest2RegionID`. -/
def USWest2RegionID : String := "us-west-2"

/-- Region constant `names.USGovEast1RegionID`. -/
def USGovEast1RegionID : String := "us-gov-east-1"

/-- Region constant `names.USGovWest1RegionID`. -/
def USGovWest1RegionID : String := "us-gov-west-1"

/-- Model of a Go `error` value as it is produced by the sweep module:
a client-acquisition failure, a wrapped fatal listing error
(`fmt.Errorf("error listing ... (%s): %w", region, err)`), a wrapped
orchestrator failure (`fmt.Errorf("error sweeping ... (%s): %w", ...)`),
an identifier-build failure, a single deletion failure, or a
`multierror` aggregate of several underlying errors. -/
inductive GoErr where
  | clientErr (msg : String)
  | listErr (kind region msg : String)
  | sweepErr (kind region : String) (underlying : GoErr)
  | buildErr (msg : String)
  | deleteErr (msg : String)
  | multi (errs : List GoErr)

/-- Model of `(*multierror.Error).ErrorOrNil()`: `none` when no error
was accumulated, otherwise the aggregate of all accumulated errors. -/
def errorOrNil (errs : List GoErr) : Option GoErr :=
  if errs.isEmpty then none else some (.multi errs)

/-- A `sweep.Sweepable` handle as built by `sweep.NewSweepResource`:
the resource-kind name together with the encoded identifier that was
set on the resource data (`d.SetId(id)`). -/
structure Sweepable where
  kind : String
  id : String
deriving DecidableEq, Repr

/-- The part of the shared regional sweep client the module reads:
`client.AccountID`. -/
structure Client where
  accountID : String
deriving DecidableEq, Repr

/-- Classification of a page-fetch error by `awsv2.SkipSweepError`:
`skip` when the error is skip-worthy for the region, `fatal`
otherwise. -/
inductive ErrClass where
  | skip
  | fatal
deriving DecidableEq, Repr

/-- One outcome of `pages.NextPage(ctx)`: a successfully fetched page
of raw items, or an error already classified by `awsv2.SkipSweepError`. -/
inductive PageResult (α : Type) where
  | ok (items : List α)
  | fetchErr (cls : ErrClass) (msg : String)
deriving DecidableEq, Repr

/-! ### Resource-identifier codec

Modelled from the spec: the codec helpers
(`AccessPointCreateResourceID`, `MultiRegionAccessPointCreateResourceID`,
`ObjectLambdaAccessPointCreateResourceID`,
`StorageLensConfigurationCreateResourceID` and their parse inverses)
are not part of the given source; the spec describes them as a
delimited encoding of a composite natural key (account ID plus name)
that must round-trip exactly, with a delimiter that cannot appear
inside any component of a valid key. -/

/-- Split a character list at every `':'`, modelling
`strings.Split(s, ":")`. -/
def splitColonChars : List Char → List (List Char)
  | [] => [[]]
  | c :: cs =>
    match splitColonChars cs with
    | [] => [[]]
    | hd :: tl => if c = ':' then [] :: hd :: tl else (c :: hd) :: tl

/-- Modelled from the spec: encode the natural key (account ID, name)
of a resource as a single `':'`-delimited identifier string. -/
def encodeAccountNameID (accountID name : String) : String :=
  accountID ++ ":" ++ name

/-- Modelled from the spec: decode a `':'`-delimited identifier back
into its natural key (account ID, name); malformed identifiers yield
an error. -/
def parseAccountNameID (id : String) : Except String (String × String) :=
  match splitColonChars id.toList with
  | [a, n] => .ok (String.mk a, String.mk n)
  | _ => .error ("unexpected format for ID " ++ id)

/-- Modelled from the spec: encoder of the access point natural key. -/
def accessPointEncodeResourceID (accountID name : String) : String :=
  encodeAccountNameID accountID name

/-- Modelled from the spec: decoder of the access point identifier. -/
def AccessPointParseResourceID (id : String) : Except String (String × String) :=
  parseAccountNameID id

/-- Modelled from the spec: `AccessPointCreateResourceID` extracts the
natural key (account ID, access point name) from the raw item's
ARN-like string and encodes it via the identifier codec; a malformed
ARN (not of the six-component `arn:begin` colon-delimited shape) is a
build error. -/
def AccessPointCreateResourceID (accessPointARN : String) : Except String String :=
  match splitColonChars accessPointARN.toList with
  | [p, _partn, _svc, _reg, account, name] =>
    if p = ['a', 'r', 'n'] then
      .ok (accessPointEncodeResourceID (String.mk account) (String.mk name))
    else
      .error ("error parsing ARN (" ++ accessPointARN ++ ")")
  | _ => .error ("error parsing ARN (" ++ accessPointARN ++ ")")

/-- Modelled from the spec: multi-region access point identifier
encoder (account ID plus name). -/
def MultiRegionAccessPointCreateResourceID (accountID name : String) : String :=
  encodeAccountNameID accountID name

/-- Modelled from the spec: multi-region access point identifier
decoder. -/
def MultiRegionAccessPointParseResourceID (id : String) :
    Except String (String × String) :=
  parseAccountNameID id

/-- Modelled from the spec: object lambda access point identifier
encoder (account ID plus name). -/
def ObjectLambdaAccessPointCreateResourceID (accountID name : String) : String :=
  encodeAccountNameID accountID name

/-- Modelled from the spec: object lambda access point identifier
decoder. -/
def ObjectLambdaAccessPointParseResourceID (id : String) :
    Except String (String × String) :=
  parseAccountNameID id

/-- Modelled from the spec: storage lens configuration identifier
encoder (account ID plus configuration ID). -/
def StorageLensConfigurationCreateResourceID (accountID configID : String) : String :=
  encodeAccountNameID accountID configID

/-- Modelled from the spec: storage lens configuration identifier
decoder. -/
def StorageLensConfigurationParseResourceID (id : String) :
    Except String (String × String) :=
  parseAccountNameID id

/-! ### Sweep orchestrator (modelled from the spec) -/

/-- The deletion behaviour of the environment: for a given Sweepable,
`none` means its deletion succeeds, `some msg` means it fails with the
given error. -/
def DeleteBehavior : Type := Sweepable → Option String

/-- Modelled from the spec: one run of `sweep.SweepOrchestrator`
(which lives in `internal/sweep`, outside the given source).  For each
Sweepable in order it invokes the deletion; a failure does not prevent
attempts on the rest.  Returns the list of Sweepables whose deletion
was attempted together with the list of individual deletion failures
in order. -/
def SweepOrchestratorRun (delete : DeleteBehavior) :
    List Sweepable → List Sweepable × List GoErr
  | [] => ([], [])
  | s :: rest =>
    let tail := SweepOrchestratorRun delete rest
    match delete s with
    | some e => (s :: tail.1, GoErr.deleteErr e :: tail.2)
    | none => (s :: tail.1, tail.2)

/-- Modelled from the spec: the error value `sweep.SweepOrchestrator`
returns — the aggregate of all individual deletion failures, `none`
when the sequence is empty or every deletion succeeded. -/
def SweepOrchestrator (delete : DeleteBehavior) (sweepables : List Sweepable) :
    Option GoErr :=
  errorOrNil (SweepOrchestratorRun delete sweepables).2

/-! ### The page loop, translated from the Go `for pages.HasMorePages()`
loops of `sweep.go` -/

/-- How the Go page loop exited: all pages consumed (`completed`), an
early `return` on a skip-classified fetch error (`skipExit`), or an
early `return` of the wrapped fatal listing error (`fatalExit`).  The
accumulated Sweepables and accumulated errors at the moment of exit
are recorded. -/
inductive LoopOutcome where
  | completed (sweepables : List Sweepable) (errs : List GoErr)
  | skipExit (sweepables : List Sweepable) (errs : List GoErr)
  | fatalExit (wrapped : GoErr)

/-- Process the items of one page in order, threading the
`(sweepResources, sweeperErrs)` accumulator through the per-item
build step. -/
def processItems (build : α → List Sweepable × List GoErr → List Sweepable × List GoErr) :
    List α → List Sweepable × List GoErr → List Sweepable × List GoErr
  | [], st => st
  | x :: xs, st => processItems build xs (build x st)

/-- The `for pages.HasMorePages()` loop: fetch each page result in
turn; a skip-classified error returns early with the state so far, any
other fetch error returns early with the wrapped listing error
(`mkListErr msg`), and a successful page has its items processed by
`build`.  Also counts the number of `NextPage` calls made. -/
def pageLoop (build : α → List Sweepable × List GoErr → List Sweepable × List GoErr)
    (mkListErr : String → GoErr) :
    List (PageResult α) → List Sweepable → List GoErr → Nat × LoopOutcome
  | [], ss, errs => (0, .completed ss errs)
  | .fetchErr .skip _ :: _, ss, errs => (1, .skipExit ss errs)
  | .fetchErr .fatal msg :: _, _, _ => (1, .fatalExit (mkListErr msg))
  | .ok items :: rest, ss, errs =>
    let st := processItems build items (ss, errs)
    let next := pageLoop build mkListErr rest st.1 st.2
    (next.1 + 1, next.2)

/-! ### Per-kind item builders, translated from the inner `for` loops -/

/-- Inner loop body of `sweepAccessPoints` over `page.AccessPointList`:
build the resource ID from the item's access point ARN; a build error
is appended to `sweeperErrs` and the item is skipped (`continue`),
otherwise a Sweepable with the encoded ID is appended. -/
def accessPointBuild (accessPointArn : String)
    (st : List Sweepable × List GoErr) : List Sweepable × List GoErr :=
  match AccessPointCreateResourceID accessPointArn with
  | .error e => (st.1, st.2 ++ [.buildErr e])
  | .ok id => (st.1 ++ [⟨"aws_s3_access_point", id⟩], st.2)

/-- Inner loop body of `sweepMultiRegionAccessPoints` over
`page.AccessPoints`: every item yields exactly one Sweepable; the ID
encoding from account ID and name cannot fail. -/
def multiRegionAccessPointBuild (accountID name : String)
    (st : List Sweepable × List GoErr) : List Sweepable × List GoErr :=
  (st.1 ++ [⟨"aws_s3control_multi_region_access_point",
    MultiRegionAccessPointCreateResourceID accountID name⟩], st.2)

/-- Inner loop body of `sweepObjectLambdaAccessPoints` over
`page.ObjectLambdaAccessPointList`: every item yields exactly one
Sweepable. -/
def objectLambdaAccessPointBuild (accountID name : String)
    (st : List Sweepable × List GoErr) : List Sweepable × List GoErr :=
  (st.1 ++ [⟨"aws_s3control_object_lambda_access_point",
    ObjectLambdaAccessPointCreateResourceID accountID name⟩], st.2)

/-- Inner loop body of `sweepStorageLensConfigurations` over
`page.StorageLensConfigurationList`: the configuration with ID
`"default-account-dashboard"` is skipped (`continue`), every other
item yields one Sweepable. -/
def storageLensConfigurationBuild (accountID configID : String)
    (st : List Sweepable × List GoErr) : List Sweepable × List GoErr :=
  if configID = "default-account-dashboard" then st
  else
    (st.1 ++ [⟨"aws_s3control_storage_lens_configuration",
      StorageLensConfigurationCreateResourceID accountID configID⟩], st.2)

/-! ### The four sweep functions -/

/-- Observable outcome of one sweep-function invocation:
whether the shared regional client was acquired, how many `NextPage`
backend calls were made, the argument of the `SweepOrchestrator`
invocation (`none` when the orchestrator was never invoked), and the
returned Go error value (`none` = nil = success). -/
structure SweepRun where
  acquiredClient : Bool
  fetchedPages : Nat
  orchestrated : Option (List Sweepable)
  result : Option GoErr

/-- `sweepAccessPoints`, translated from `sweep.go` lines 47–95.  The
environment supplies the client-acquisition outcome, the sequence of
`NextPage` outcomes and the deletion behaviour. -/
def sweepAccessPoints (region : String) (clientRes : Except String Client)
    (pages : List (PageResult String)) (delete : DeleteBehavior) : SweepRun :=
  match clientRes with
  | .error e => ⟨true, 0, none, some (.clientErr e)⟩
  | .ok _client =>
    let loop := pageLoop accessPointBuild
      (fun msg => .listErr "S3 Access Points" region msg) pages [] []
    match loop.2 with
    | .skipExit _ errs => ⟨true, loop.1, none, errorOrNil errs⟩
    | .fatalExit e => ⟨true, loop.1, none, some e⟩
    | .completed sweepResources sweeperErrs =>
      let finalErrs :=
        match SweepOrchestrator delete sweepResources with
        | some oe => sweeperErrs ++ [.sweepErr "S3 Access Points" region oe]
        | none => sweeperErrs
      ⟨true, loop.1, some sweepResources, errorOrNil finalErrs⟩

/-- `sweepMultiRegionAccessPoints`, translated from `sweep.go` lines
97–143: regions other than `us-west-2` short-circuit with success
before the client is acquired. -/
def sweepMultiRegionAccessPoints (region : String) (clientRes : Except String Client)
    (pages : List (PageResult String)) (delete : DeleteBehavior) : SweepRun :=
  if region ≠ USWest2RegionID then ⟨false, 0, none, none⟩
  else
    match clientRes with
    | .error e => ⟨true, 0, none, some (.clientErr e)⟩
    | .ok client =>
      let loop := pageLoop (multiRegionAccessPointBuild client.accountID)
        (fun msg => .listErr "S3 Multi-Region Access Points" region msg) pages [] []
      match loop.2 with
      | .skipExit _ _ => ⟨true, loop.1, none, none⟩
      | .fatalExit e => ⟨true, loop.1, none, some e⟩
      | .completed sweepResources _ =>
        ⟨true, loop.1, some sweepResources,
          match SweepOrchestrator delete sweepResources with
          | some oe => some (.sweepErr "S3 Multi-Region Access Points" region oe)
          | none => none⟩

/-- `sweepObjectLambdaAccessPoints`, translated from `sweep.go` lines
145–187. -/
def sweepObjectLambdaAccessPoints (region : String) (clientRes : Except String Client)
    (pages : List (PageResult String)) (delete : DeleteBehavior) : SweepRun :=
  match clientRes with
  | .error e => ⟨true, 0, none, some (.clientErr e)⟩
  | .ok client =>
    let loop := pageLoop (objectLambdaAccessPointBuild client.accountID)
      (fun msg => .listErr "S3 Object Lambda Access Points" region msg) pages [] []
    match loop.2 with
    | .skipExit _ _ => ⟨true, loop.1, none, none⟩
    | .fatalExit e => ⟨true, loop.1, none, some e⟩
    | .completed sweepResources _ =>
      ⟨true, loop.1, some sweepResources,
        match SweepOrchestrator delete sweepResources with
        | some oe => some (.sweepErr "S3 Object Lambda Access Points" region oe)
        | none => none⟩

/-- `sweepStorageLensConfigurations`, translated from `sweep.go` lines
189–241: the `us-gov-east-1` and `us-gov-west-1` regions short-circuit
with success before the client is acquired. -/
def sweepStorageLensConfigurations (region : String) (clientRes : Except String Client)
    (pages : List (PageResult String)) (delete : DeleteBehavior) : SweepRun :=
  if region = USGovEast1RegionID ∨ region = USGovWest1RegionID then ⟨false, 0, none, none⟩
  else
    match clientRes with
    | .error e => ⟨true, 0, none, some (.clientErr e)⟩
    | .ok client =>
      let loop := pageLoop (storageLensConfigurationBuild client.accountID)
        (fun msg => .listErr "S3 Storage Lens Configurations" region msg) pages [] []
      match loop.2 with
      | .skipExit _ _ => ⟨true, loop.1, none, none⟩
      | .fatalExit e => ⟨true, loop.1, none, some e⟩
      | .completed sweepResources _ =>
        ⟨true, loop.1, some sweepResources,
          match SweepOrchestrator delete sweepResources with
          | some oe => some (.sweepErr "S3 Storage Lens Configurations" region oe)
          | none => none⟩

/-! ### The sweeper registry, translated from the `init` function -/

/-- One `resource.Sweeper` registration: name, declared dependency
names and the discovery function. -/
structure Sweeper where
  name : String
  dependencies : List String
  run : String → Except String Client → List (PageResult String) →
    DeleteBehavior → SweepRun

/-- The four registrations performed by the `init` function of
`sweep.go` (lines 22–45), in order. -/
def s3controlSweepers : List Sweeper :=
  [ ⟨"aws_s3_access_point", ["aws_s3control_object_lambda_access_point"],
      sweepAccessPoints⟩,
    ⟨"aws_s3control_multi_region_access_point", [], sweepMultiRegionAccessPoints⟩,
    ⟨"aws_s3control_object_lambda_access_point", [], sweepObjectLambdaAccessPoints⟩,
    ⟨"aws_s3control_storage_lens_configuration", [], sweepStorageLensConfigurations⟩ ]

/-- Modelled from the spec: the invoking harness runs registered kinds
sequentially in some order; the order is admissible when no kind runs
before a declared dependency that is also scheduled, so a dependency's
discovery-and-sweep completes strictly before the dependent kind
begins. -/
def respectsDependencies (sweepers : List Sweeper) (order : List String) : Bool :=
  sweepers.all fun s => s.dependencies.all fun d =>
    match order.indexOf? d, order.indexOf? s.name with
    | some i, some j => decide (i < j)
    | _, _ => true

/-! ### Helper lemmas -/

theorem splitColonChars_ne_nil (xs : List Char) : splitColonChars xs ≠ [] := by
  cases xs with
  | nil => simp [splitColonChars]
  | cons c cs =>
    simp only [splitColonChars]
    cases splitColonChars cs with
    | nil => simp
    | cons hd tl =>
      by_cases h : c = ':' <;> simp [h]

theorem splitColonChars_no_colon (xs : List Char) (h : ':' ∉ xs) :
    splitColonChars xs = [xs] := by
  induction xs with
  | nil => rfl
  | cons c cs ih =>
    have hc : c ≠ ':' := fun hc => h (hc ▸ List.mem_cons_self c cs)
    have hcs : ':' ∉ cs := fun hm => h (List.mem_cons_of_mem c hm)
    simp [splitColonChars, ih hcs, hc]

theorem splitColonChars_append (xs ys : List Char) (h : ':' ∉ xs) :
    splitColonChars (xs ++ ':' :: ys) = xs :: splitColonChars ys := by
  induction xs with
  | nil =>
    obtain ⟨hd, tl, hht⟩ : ∃ hd tl, splitColonChars ys = hd :: tl := by
      cases hsp : splitColonChars ys with
      | nil => exact absurd hsp (splitColonChars_ne_nil ys)
      | cons hd tl => exact ⟨hd, tl, rfl⟩
    simp [splitColonChars, hht]
  | cons c cs ih =>
    have hc : c ≠ ':' := fun hc => h (hc ▸ List.mem_cons_self c cs)
    have hcs : ':' ∉ cs := fun hm => h (List.mem_cons_of_mem c hm)
    have hstep : splitColonChars (c :: (cs ++ ':' :: ys)) =
        match splitColonChars (cs ++ ':' :: ys) with
        | [] => [[]]
        | hd :: tl => if c = ':' then [] :: hd :: tl else (c :: hd) :: tl := rfl
    rw [List.cons_append, hstep, ih hcs]
    simp [hc]

theorem parse_encodeAccountNameID (a n : String)
    (ha : ':' ∉ a.data) (hn : ':' ∉ n.data) :
    parseAccountNameID (encodeAccountNameID a n) = .ok (a, n) := by
  obtain ⟨la⟩ := a
  obtain ⟨ln⟩ := n
  have hdata : (encodeAccountNameID ⟨la⟩ ⟨ln⟩).data = la ++ ':' :: ln := by
    simp [encodeAccountNameID, String.append]
  simp only [parseAccountNameID, String.toList, hdata,
    splitColonChars_append la ln ha, splitColonChars_no_colon ln hn]

theorem processItems_append
    (build : α → List Sweepable × List GoErr → List Sweepable × List GoErr)
    (xs ys : List α) (st : List Sweepable × List GoErr) :
    processItems build (xs ++ ys) st =
      processItems build ys (processItems build xs st) := by
  induction xs generalizing st with
  | nil => rfl
  | cons x xs ih => simp [processItems, ih]

theorem pageLoop_ok_pages
    (build : α → List Sweepable × List GoErr → List Sweepable × List GoErr)
    (mkListErr : String → GoErr) (okPages : List (List α))
    (ss : List Sweepable) (errs : List GoErr) :
    pageLoop build mkListErr (okPages.map PageResult.ok) ss errs =
      (okPages.length,
        .completed (processItems build okPages.flatten (ss, errs)).1
          (processItems build okPages.flatten (ss, errs)).2) := by
  induction okPages generalizing ss errs with
  | nil => rfl
  | cons p ps ih =>
    simp only [List.map_cons, pageLoop, List.flatten_cons, processItems_append]
    rw [ih]
    simp [Nat.add_comm]

theorem pageLoop_append_completed
    (build : α → List Sweepable × List GoErr → List Sweepable × List GoErr)
    (mkListErr : String → GoErr) (xs ys : List (PageResult α))
    (ss : List Sweepable) (errs : List GoErr) (n : Nat)
    (ss' : List Sweepable) (errs' : List GoErr)
    (h : pageLoop build mkListErr xs ss errs = (n, .completed ss' errs')) :
    pageLoop build mkListErr (xs ++ ys) ss errs =
      ((pageLoop build mkListErr ys ss' errs').1 + n,
       (pageLoop build mkListErr ys ss' errs').2) := by
  induction xs generalizing ss errs n with
  | nil =>
    simp only [pageLoop] at h
    injection h with h1 h2
    injection h2 with h3 h4
    subst h1 h3 h4
    simp
  | cons p xs ih =>
    cases p with
    | ok items =>
      simp only [pageLoop] at h
      injection h with h1 h2
      subst h1
      have hx : pageLoop build mkListErr xs
          (processItems build items (ss, errs)).1
          (processItems build items (ss, errs)).2 =
          ((pageLoop build mkListErr xs (processItems build items (ss, errs)).1
            (processItems build items (ss, errs)).2).1, .completed ss' errs') := by
        rw [← h2]
      rw [List.cons_append]
      simp only [pageLoop]
      rw [ih _ _ _ hx]
      simp [Nat.add_assoc]
    | fetchErr cls msg =>
      cases cls <;> simp [pageLoop] at h

theorem SweepOrchestratorRun_fst (delete : DeleteBehavior) (ss : List Sweepable) :
    (SweepOrchestratorRun delete ss).1 = ss := by
  induction ss with
  | nil => rfl
  | cons s rest ih =>
    simp only [SweepOrchestratorRun]
    cases delete s <;> simp [ih]

theorem SweepOrchestratorRun_snd (delete : DeleteBehavior) (ss : List Sweepable) :
    (SweepOrchestratorRun delete ss).2 =
      ss.filterMap (fun s => (delete s).map GoErr.deleteErr) := by
  induction ss with
  | nil => rfl
  | cons s rest ih =>
    simp only [SweepOrchestratorRun, List.filterMap_cons]
    cases delete s <;> simp [ih]

theorem errorOrNil_eq_none_iff (errs : List GoErr) :
    errorOrNil errs = none ↔ errs = [] := by
  simp [errorOrNil, List.isEmpty_iff]

/-- C2: the SweepOrchestrator attempts deletion of every Sweepable it
is given, in order and with no early abort; the failures it aggregates
are exactly the deletion failures of the failing Sweepables, in order;
and it returns no error exactly when every deletion succeeds (in
particular on the empty sequence). -/
theorem sweepOrchestrator_attempts_all_and_aggregates
    (delete : DeleteBehavior) (sweepables : List Sweepable) :
    (SweepOrchestratorRun delete sweepables).1 = sweepables ∧
    (SweepOrchestratorRun delete sweepables).2 =
      sweepables.filterMap (fun s => (delete s).map GoErr.deleteErr) ∧
    (SweepOrchestratorRun delete sweepables).2.length =
      (sweepables.filter (fun s => (delete s).isSome)).length ∧
    (SweepOrchestrator delete sweepables = none ↔
      ∀ s ∈ sweepables, delete s = none) := by
  refine ⟨SweepOrchestratorRun_fst delete sweepables,
    SweepOrchestratorRun_snd delete sweepables, ?_, ?_⟩
  · rw [SweepOrchestratorRun_snd]
    induction sweepables with
    | nil => rfl
    | cons s rest ih =>
      simp only [List.filterMap_cons, List.filter_cons]
      cases delete s <;> simp [ih]
  · rw [SweepOrchestrator, errorOrNil_eq_none_iff, SweepOrchestratorRun_snd,
      List.filterMap_eq_nil_iff]
    constructor
    · intro h s hs
      have := h s hs
      cases hd : delete s with
      | none => rfl
      | some e => rw [hd] at this; simp at this
    · intro h s hs
      rw [h s hs]
      rfl

/-- C7: for every valid natural key — components free of the `':'`
delimiter — decoding the encoded identifier returns exactly the key,
for the codec of each of the four resource kinds. -/
theorem resourceID_codec_round_trip (accountID name : String)
    (ha : ':' ∉ accountID.data) (hn : ':' ∉ name.data) :
    AccessPointParseResourceID (accessPointEncodeResourceID accountID name) =
      .ok (accountID, name) ∧
    MultiRegionAccessPointParseResourceID
      (MultiRegionAccessPointCreateResourceID accountID name) =
      .ok (accountID, name) ∧
    ObjectLambdaAccessPointParseResourceID
      (ObjectLambdaAccessPointCreateResourceID accountID name) =
      .ok (accountID, name) ∧
    StorageLensConfigurationParseResourceID
      (StorageLensConfigurationCreateResourceID accountID name) =
      .ok (accountID, name) := by
  have h := parse_encodeAccountNameID accountID name ha hn
  exact ⟨h, h, h, h⟩

/-- Witness for C7: the round trip evaluated on a concrete key. -/
theorem resourceID_codec_round_trip_witness :
    AccessPointParseResourceID
      (accessPointEncodeResourceID "123456789012" "example") =
      .ok ("123456789012", "example") ∧
    MultiRegionAccessPointParseResourceID
      (MultiRegionAccessPointCreateResourceID "123456789012" "example") =
      .ok ("123456789012", "example") ∧
    ObjectLambdaAccessPointParseResourceID
      (ObjectLambdaAccessPointCreateResourceID "123456789012" "example") =
      .ok ("123456789012", "example") ∧
    StorageLensConfigurationParseResourceID
      (StorageLensConfigurationCreateResourceID "123456789012" "example") =
      .ok ("123456789012", "example") :=
  resourceID_codec_round_trip "123456789012" "example" (by decide) (by decide)

theorem pageLoop_fatal_inv
    (build : α → List Sweepable × List GoErr → List Sweepable × List GoErr)
    (mkListErr : String → GoErr) :
    ∀ (pages : List (PageResult α)) (ss : List Sweepable) (errs : List GoErr)
      (n : Nat) (e : GoErr),
      pageLoop build mkListErr pages ss errs = (n, .fatalExit e) →
      ∃ msg, e = mkListErr msg := by
  intro pages
  induction pages with
  | nil =>
    intro ss errs n e h
    simp [pageLoop] at h
  | cons p rest ih =>
    intro ss errs n e h
    cases p with
    | ok items =>
      simp only [pageLoop] at h
      injection h with h1 h2
      exact ih _ _ _ _ (by rw [← h2])
    | fetchErr cls msg =>
      cases cls with
      | skip => simp [pageLoop] at h
      | fatal =>
        simp only [pageLoop] at h
        injection h with h1 h2
        injection h2 with h3
        exact ⟨msg, h3.symm⟩

theorem processItems_preserves (P : Sweepable → Prop)
    (build : α → List Sweepable × List GoErr → List Sweepable × List GoErr)
    (hbuild : ∀ x st, (∀ s ∈ st.1, P s) → ∀ s ∈ (build x st).1, P s) :
    ∀ (items : List α) (st : List Sweepable × List GoErr),
      (∀ s ∈ st.1, P s) → ∀ s ∈ (processItems build items st).1, P s := by
  intro items
  induction items with
  | nil => intro st h; exact h
  | cons x xs ih => intro st h; exact ih _ (hbuild x st h)

theorem pageLoop_completed_preserves (P : Sweepable → Prop)
    (build : α → List Sweepable × List GoErr → List Sweepable × List GoErr)
    (mkListErr : String → GoErr)
    (hbuild : ∀ x st, (∀ s ∈ st.1, P s) → ∀ s ∈ (build x st).1, P s) :
    ∀ (pages : List (PageResult α)) (ss : List Sweepable) (errs : List GoErr)
      (n : Nat) (ss' : List Sweepable) (errs' : List GoErr),
      (∀ s ∈ ss, P s) →
      pageLoop build mkListErr pages ss errs = (n, .completed ss' errs') →
      ∀ s ∈ ss', P s := by
  intro pages
  induction pages with
  | nil =>
    intro ss errs n ss' errs' hss h
    simp only [pageLoop] at h
    injection h with h1 h2
    injection h2 with h3 h4
    subst h3
    exact hss
  | cons p rest ih =>
    intro ss errs n ss' errs' hss h
    cases p with
    | ok items =>
      simp only [pageLoop] at h
      injection h with h1 h2
      exact ih _ _ _ _ _
        (processItems_preserves P build hbuild items (ss, errs) hss)
        (by rw [← h2])
    | fetchErr cls msg =>
      cases cls <;> simp [pageLoop] at h

/-- C4: when the region policy makes a kind ineligible — multi-region
access points outside `us-west-2`, storage lens configurations in the
two GovCloud regions — the discovery function returns success with
zero Sweepables, never acquires the client and makes zero page
fetches. -/
theorem regionPolicy_ineligible_no_backend_calls
    (region : String) (clientRes : Except String Client)
    (pages : List (PageResult String)) (delete : DeleteBehavior) :
    (region ≠ USWest2RegionID →
      sweepMultiRegionAccessPoints region clientRes pages delete =
        ⟨false, 0, none, none⟩) ∧
    (region = USGovEast1RegionID ∨ region = USGovWest1RegionID →
      sweepStorageLensConfigurations region clientRes pages delete =
        ⟨false, 0, none, none⟩) := by
  constructor
  · intro h
    simp [sweepMultiRegionAccessPoints, h]
  · intro h
    simp [sweepStorageLensConfigurations, h]

/-- Witness for C4, at an ineligible region of each gated kind. -/
theorem regionPolicy_ineligible_no_backend_calls_witness :
    sweepMultiRegionAccessPoints "us-east-1" (.error "no credentials")
      [.ok ["mrap"]] (fun _ => none) = ⟨false, 0, none, none⟩ ∧
    sweepStorageLensConfigurations "us-gov-east-1" (.error "no credentials")
      [.ok ["cfg"]] (fun _ => none) = ⟨false, 0, none, none⟩ :=
  ⟨(regionPolicy_ineligible_no_backend_calls "us-east-1" (.error "no credentials")
      [.ok ["mrap"]] (fun _ => none)).1 (by decide),
   (regionPolicy_ineligible_no_backend_calls "us-gov-east-1" (.error "no credentials")
      [.ok ["cfg"]] (fun _ => none)).2 (Or.inl rfl)⟩

/-- C5: in the access-point discovery loop, an identifier-build
failure on one item appends that failure to the running error
aggregate and building continues unchanged for the remaining items of
the page and for all later pages. -/
theorem accessPointBuildError_continues
    (pre post : List String) (arn e : String)
    (h : AccessPointCreateResourceID arn = .error e) :
    (∀ st : List Sweepable × List GoErr,
      processItems accessPointBuild (pre ++ arn :: post) st =
        processItems accessPointBuild post
          ((processItems accessPointBuild pre st).1,
           (processItems accessPointBuild pre st).2 ++ [.buildErr e])) ∧
    (∀ (mkListErr : String → GoErr) (rest : List (PageResult String))
        (ss ss1 : List Sweepable) (errs errs1 : List GoErr),
      processItems accessPointBuild (pre ++ arn :: post) (ss, errs) = (ss1, errs1) →
      pageLoop accessPointBuild mkListErr
          (PageResult.ok (pre ++ arn :: post) :: rest) ss errs =
        ((pageLoop accessPointBuild mkListErr rest ss1 errs1).1 + 1,
         (pageLoop accessPointBuild mkListErr rest ss1 errs1).2)) := by
  have key : ∀ st : List Sweepable × List GoErr,
      processItems accessPointBuild (pre ++ arn :: post) st =
        processItems accessPointBuild post
          ((processItems accessPointBuild pre st).1,
           (processItems accessPointBuild pre st).2 ++ [.buildErr e]) := by
    intro st
    rw [processItems_append]
    simp [processItems, accessPointBuild, h]
  refine ⟨key, ?_⟩
  intro mkListErr rest ss ss1 errs errs1 hst
  simp only [pageLoop, hst]

/-- Witness for C5: pages with a malformed ARN between two valid ones. -/
theorem accessPointBuildError_continues_witness :
    processItems accessPointBuild
      (["arn:aws:s3:us-west-2:123456789012:accesspoint/alpha"] ++ "malformed" ::
        ["arn:aws:s3:us-west-2:123456789012:accesspoint/beta"]) ([], []) =
      processItems accessPointBuild
        ["arn:aws:s3:us-west-2:123456789012:accesspoint/beta"]
        ((processItems accessPointBuild
            ["arn:aws:s3:us-west-2:123456789012:accesspoint/alpha"] ([], [])).1,
         (processItems accessPointBuild
            ["arn:aws:s3:us-west-2:123456789012:accesspoint/alpha"] ([], [])).2 ++
           [.buildErr "error parsing ARN (malformed)"]) :=
  (accessPointBuildError_continues
    ["arn:aws:s3:us-west-2:123456789012:accesspoint/alpha"]
    ["arn:aws:s3:us-west-2:123456789012:accesspoint/beta"]
    "malformed" "error parsing ARN (malformed)" (by rfl)).1 ([], [])

/-- C10: for multi-region and object-lambda access points every raw
item yields exactly one Sweepable and the error accumulator is never
touched by item building; consequently the only failures these
discovery functions can return are client acquisition, a wrapped fatal
listing error, or a wrapped orchestrator error. -/
theorem totalBuilders_one_sweepable_no_build_errors (accountID : String) :
    (∀ (items : List String) (st : List Sweepable × List GoErr),
      processItems (multiRegionAccessPointBuild accountID) items st =
        (st.1 ++ items.map (fun v =>
          ⟨"aws_s3control_multi_region_access_point",
           MultiRegionAccessPointCreateResourceID accountID v⟩), st.2)) ∧
    (∀ (items : List String) (st : List Sweepable × List GoErr),
      processItems (objectLambdaAccessPointBuild accountID) items st =
        (st.1 ++ items.map (fun v =>
          ⟨"aws_s3control_object_lambda_access_point",
           ObjectLambdaAccessPointCreateResourceID accountID v⟩), st.2)) ∧
    (∀ (region : String) (clientRes : Except String Client)
        (pages : List (PageResult String)) (delete : DeleteBehavior),
      (sweepMultiRegionAccessPoints region clientRes pages delete).result = none ∨
      (∃ m, (sweepMultiRegionAccessPoints region clientRes pages delete).result =
        some (.clientErr m)) ∨
      (∃ m, (sweepMultiRegionAccessPoints region clientRes pages delete).result =
        some (.listErr "S3 Multi-Region Access Points" region m)) ∨
      (∃ oe, (sweepMultiRegionAccessPoints region clientRes pages delete).result =
        some (.sweepErr "S3 Multi-Region Access Points" region oe))) ∧
    (∀ (region : String) (clientRes : Except String Client)
        (pages : List (PageResult String)) (delete : DeleteBehavior),
      (sweepObjectLambdaAccessPoints region clientRes pages delete).result = none ∨
      (∃ m, (sweepObjectLambdaAccessPoints region clientRes pages delete).result =
        some (.clientErr m)) ∨
      (∃ m, (sweepObjectLambdaAccessPoints region clientRes pages delete).result =
        some (.listErr "S3 Object Lambda Access Points" region m)) ∨
      (∃ oe, (sweepObjectLambdaAccessPoints region clientRes pages delete).result =
        some (.sweepErr "S3 Object Lambda Access Points" region oe))) := by
  refine ⟨?_, ?_, ?_, ?_⟩
  · intro items
    induction items with
    | nil => intro st; simp [processItems]
    | cons x xs ih =>
      intro st
      simp [processItems, multiRegionAccessPointBuild, ih]
  · intro items
    induction items with
    | nil => intro st; simp [processItems]
    | cons x xs ih =>
      intro st
      simp [processItems, objectLambdaAccessPointBuild, ih]
  · intro region clientRes pages delete
    by_cases hreg : region ≠ USWest2RegionID
    · left
      simp [sweepMultiRegionAccessPoints, hreg]
    · cases clientRes with
      | error e =>
        right; left
        exact ⟨e, by simp [sweepMultiRegionAccessPoints, hreg]⟩
      | ok client =>
        rcases hpl : pageLoop (multiRegionAccessPointBuild client.accountID)
          (fun msg => GoErr.listErr "S3 Multi-Region Access Points" region msg)
          pages [] [] with ⟨n, out⟩
        cases out with
        | completed sweepResources errs =>
          cases horch : SweepOrchestrator delete sweepResources with
          | none =>
            left
            simp [sweepMultiRegionAccessPoints, hreg, hpl, horch]
          | some oe =>
            right; right; right
            exact ⟨oe, by simp [sweepMultiRegionAccessPoints, hreg, hpl, horch]⟩
        | skipExit ss errs =>
          left
          simp [sweepMultiRegionAccessPoints, hreg, hpl]
        | fatalExit e =>
          obtain ⟨m, rfl⟩ := pageLoop_fatal_inv _ _ pages [] [] n e hpl
          right; right; left
          exact ⟨m, by simp [sweepMultiRegionAccessPoints, hreg, hpl]⟩
  · intro region clientRes pages delete
    cases clientRes with
    | error e =>
      right; left
      exact ⟨e, by simp [sweepObjectLambdaAccessPoints]⟩
    | ok client =>
      rcases hpl : pageLoop (objectLambdaAccessPointBuild client.accountID)
        (fun msg => GoErr.listErr "S3 Object Lambda Access Points" region msg)
        pages [] [] with ⟨n, out⟩
      cases out with
      | completed sweepResources errs =>
        cases horch : SweepOrchestrator delete sweepResources with
        | none =>
          left
          simp [sweepObjectLambdaAccessPoints, hpl, horch]
        | some oe =>
          right; right; right
          exact ⟨oe, by simp [sweepObjectLambdaAccessPoints, hpl, horch]⟩
      | skipExit ss errs =>
        left
        simp [sweepObjectLambdaAccessPoints, hpl]
      | fatalExit e =>
        obtain ⟨m, rfl⟩ := pageLoop_fatal_inv _ _ pages [] [] n e hpl
        right; right; left
        exact ⟨m, by simp [sweepObjectLambdaAccessPoints, hpl]⟩

/-- C9: the storage-lens item builder drops exactly the configurations
whose ID is `"default-account-dashboard"`, and in every run of the
storage-lens discovery function no Sweepable handed to the
orchestrator was built for the default dashboard — each one comes from
some other configuration ID. -/
theorem storageLens_default_dashboard_never_swept :
    (∀ (accountID : String) (configIDs : List String)
        (st : List Sweepable × List GoErr),
      processItems (storageLensConfigurationBuild accountID) configIDs st =
        (st.1 ++ (configIDs.filter
            (fun cid => cid != "default-account-dashboard")).map
          (fun cid => ⟨"aws_s3control_storage_lens_configuration",
            StorageLensConfigurationCreateResourceID accountID cid⟩), st.2)) ∧
    (∀ (region : String) (c : Client) (pages : List (PageResult String))
        (delete : DeleteBehavior) (ss : List Sweepable),
      (sweepStorageLensConfigurations region (.ok c) pages delete).orchestrated =
        some ss →
      ∀ s ∈ ss, ∃ cid, cid ≠ "default-account-dashboard" ∧
        s = ⟨"aws_s3control_storage_lens_configuration",
          StorageLensConfigurationCreateResourceID c.accountID cid⟩) := by
  constructor
  · intro accountID configIDs
    induction configIDs with
    | nil => intro st; simp [processItems]
    | cons cid rest ih =>
      intro st
      by_cases hcid : cid = "default-account-dashboard"
      · simp [processItems, storageLensConfigurationBuild, hcid, ih]
      · simp [processItems, storageLensConfigurationBuild, hcid, ih,
          List.filter_cons]
  · intro region c pages delete ss horch s hs
    have hbuild : ∀ (x : String) (st : List Sweepable × List GoErr),
        (∀ t ∈ st.1, ∃ cid, cid ≠ "default-account-dashboard" ∧
          t = ⟨"aws_s3control_storage_lens_configuration",
            StorageLensConfigurationCreateResourceID c.accountID cid⟩) →
        ∀ t ∈ (storageLensConfigurationBuild c.accountID x st).1,
          ∃ cid, cid ≠ "default-account-dashboard" ∧
            t = ⟨"aws_s3control_storage_lens_configuration",
              StorageLensConfigurationCreateResourceID c.accountID cid⟩ := by
      intro x st hst t ht
      by_cases hx : x = "default-account-dashboard"
      · simp only [storageLensConfigurationBuild, hx, if_pos rfl] at ht
        exact hst t ht
      · simp only [storageLensConfigurationBuild, if_neg hx, List.mem_append,
          List.mem_singleton] at ht
        rcases ht with ht | ht
        · exact hst t ht
        · exact ⟨x, hx, ht⟩
    by_cases hreg : region = USGovEast1RegionID ∨ region = USGovWest1RegionID
    · simp [sweepStorageLensConfigurations, hreg] at horch
    · rcases hpl : pageLoop (storageLensConfigurationBuild c.accountID)
        (fun msg => GoErr.listErr "S3 Storage Lens Configurations" region msg)
        pages [] [] with ⟨n, out⟩
      cases out with
      | completed sweepResources errs =>
        have : (sweepStorageLensConfigurations region (.ok c) pages delete).orchestrated =
            some sweepResources := by
          simp [sweepStorageLensConfigurations, hreg, hpl]
        rw [this] at horch
        injection horch with hss
        subst hss
        exact pageLoop_completed_preserves _ _ _ hbuild pages [] [] n
          sweepResources errs (by simp) hpl s hs
      | skipExit ss' errs' =>
        simp [sweepStorageLensConfigurations, hreg, hpl] at horch
      | fatalExit e =>
        simp [sweepStorageLensConfigurations, hreg, hpl] at horch

/-- Witness for C9: a run listing the default dashboard and one custom
configuration orchestrates only the custom one, which decodes to a
non-dashboard configuration ID. -/
theorem storageLens_default_dashboard_never_swept_witness :
    ∃ cid, cid ≠ "default-account-dashboard" ∧
      Sweepable.mk "aws_s3control_storage_lens_configuration"
          "123456789012:custom-lens" =
        ⟨"aws_s3control_storage_lens_configuration",
          StorageLensConfigurationCreateResourceID "123456789012" cid⟩ :=
  (storageLens_default_dashboard_never_swept).2 "us-east-1" ⟨"123456789012"⟩
    [.ok ["default-account-dashboard", "custom-lens"]] (fun _ => none)
    [⟨"aws_s3control_storage_lens_configuration", "123456789012:custom-lens"⟩]
    (by rfl)
    ⟨"aws_s3control_storage_lens_configuration", "123456789012:custom-lens"⟩
    (by simp)

/-- C6: in an access-point discovery run whose page loop completes (so
the orchestration step is reached), the returned value is nil exactly
when no build error was accumulated and the orchestrator returned no
error; when the orchestrator fails, the returned aggregate holds every
accumulated build error followed by the wrapped orchestrator error;
when only build errors occurred, the aggregate is exactly their
`ErrorOrNil`. -/
theorem sweepAccessPoints_aggregate_iff
    (region : String) (c : Client) (pages : List (PageResult String))
    (delete : DeleteBehavior) (n : Nat) (ss : List Sweepable) (errs : List GoErr)
    (h : pageLoop accessPointBuild
        (fun msg => GoErr.listErr "S3 Access Points" region msg) pages [] [] =
      (n, .completed ss errs)) :
    ((sweepAccessPoints region (.ok c) pages delete).result = none ↔
      errs = [] ∧ SweepOrchestrator delete ss = none) ∧
    (∀ oe, SweepOrchestrator delete ss = some oe →
      (sweepAccessPoints region (.ok c) pages delete).result =
        some (.multi (errs ++ [.sweepErr "S3 Access Points" region oe]))) ∧
    (SweepOrchestrator delete ss = none →
      (sweepAccessPoints region (.ok c) pages delete).result = errorOrNil errs) := by
  cases horch : SweepOrchestrator delete ss with
  | none =>
    have hres : (sweepAccessPoints region (.ok c) pages delete).result =
        errorOrNil errs := by
      simp [sweepAccessPoints, h, horch]
    refine ⟨?_, ?_, fun _ => hres⟩
    · rw [hres, errorOrNil_eq_none_iff]
      simp
    · intro oe hoe
      simp at hoe
  | some oe =>
    have hres : (sweepAccessPoints region (.ok c) pages delete).result =
        some (.multi (errs ++ [.sweepErr "S3 Access Points" region oe])) := by
      simp [sweepAccessPoints, h, horch, errorOrNil]
    refine ⟨?_, ?_, ?_⟩
    · rw [hres]
      simp
    · intro oe' hoe
      injection hoe with he
      subst he
      exact hres
    · intro hoe
      simp at hoe
  
/-- Witness for C6: a completed run with one build error and an empty
orchestrated batch returns exactly the aggregate of that build error. -/
theorem sweepAccessPoints_aggregate_iff_witness :
    (sweepAccessPoints "us-east-1" (.ok ⟨"123456789012"⟩) [.ok ["bad"]]
      (fun _ => none)).result =
      errorOrNil [.buildErr "error parsing ARN (bad)"] :=
  (sweepAccessPoints_aggregate_iff "us-east-1" ⟨"123456789012"⟩ [.ok ["bad"]]
    (fun _ => none) 1 [] [.buildErr "error parsing ARN (bad)"] (by rfl)).2.2 (by rfl)

/-- C1 counterexample: with one successfully fetched page holding a
valid access point and a fatal error on the next fetch,
`sweepAccessPoints` returns only the wrapped listing error and never
invokes the orchestrator, although one Sweepable had been accumulated
from the earlier page. -/
theorem sweepAccessPoints_fatal_drops_accumulated :
    (pageLoop accessPointBuild
        (fun msg => GoErr.listErr "S3 Access Points" "us-east-1" msg)
        [.ok ["arn:aws:s3:us-east-1:123456789012:accesspoint/test"]] [] []).2 =
      .completed [⟨"aws_s3_access_point", "123456789012:accesspoint/test"⟩] [] ∧
    (sweepAccessPoints "us-east-1" (.ok ⟨"123456789012"⟩)
        [.ok ["arn:aws:s3:us-east-1:123456789012:accesspoint/test"],
         .fetchErr .fatal "connection reset"]
        (fun _ => none)).orchestrated = none ∧
    (sweepAccessPoints "us-east-1" (.ok ⟨"123456789012"⟩)
        [.ok ["arn:aws:s3:us-east-1:123456789012:accesspoint/test"],
         .fetchErr .fatal "connection reset"]
        (fun _ => none)).result =
      some (.listErr "S3 Access Points" "us-east-1" "connection reset") :=
  ⟨rfl, rfl, rfl⟩

/-- C1 (amended): on a fatal (non-skip) page-fetch error the
discovery function returns the wrapped listing error immediately and
does not invoke the SweepOrchestrator at all — Sweepables accumulated
from earlier pages are discarded, not deleted.  Stated for
`sweepAccessPoints` and `sweepMultiRegionAccessPoints`. -/
theorem sweepFatalListing_no_orchestration
    (region : String) (c : Client) (pages : List (PageResult String))
    (delete : DeleteBehavior) (n : Nat) (e : GoErr) :
    (pageLoop accessPointBuild
        (fun msg => GoErr.listErr "S3 Access Points" region msg) pages [] [] =
        (n, .fatalExit e) →
      sweepAccessPoints region (.ok c) pages delete = ⟨true, n, none, some e⟩) ∧
    (region = USWest2RegionID →
      pageLoop (multiRegionAccessPointBuild c.accountID)
        (fun msg => GoErr.listErr "S3 Multi-Region Access Points" region msg)
        pages [] [] = (n, .fatalExit e) →
      sweepMultiRegionAccessPoints region (.ok c) pages delete =
        ⟨true, n, none, some e⟩) := by
  constructor
  · intro h
    simp [sweepAccessPoints, h]
  · intro hreg h
    subst hreg
    simp [sweepMultiRegionAccessPoints, h]

/-- Witness for C1's amended statement: a fatal error on the very
first fetch yields the wrapped error with no orchestration. -/
theorem sweepFatalListing_no_orchestration_witness :
    sweepAccessPoints "us-east-1" (.ok ⟨"123456789012"⟩)
      [.fetchErr .fatal "SerializationError"] (fun _ => none) =
      ⟨true, 1, none,
        some (.listErr "S3 Access Points" "us-east-1" "SerializationError")⟩ :=
  (sweepFatalListing_no_orchestration "us-east-1" ⟨"123456789012"⟩
    [.fetchErr .fatal "SerializationError"] (fun _ => none) 1
    (.listErr "S3 Access Points" "us-east-1" "SerializationError")).1 (by rfl)

/-- C3 counterexample: a skip-classified fetch error does not make
`sweepAccessPoints` return success when build errors were accumulated
on earlier pages — the run returns the non-nil aggregate of those
earlier errors. -/
theorem sweepAccessPoints_skip_after_build_error_not_success :
    (sweepAccessPoints "us-east-1" (.ok ⟨"123456789012"⟩)
        [.ok ["bad"], .fetchErr .skip "AccessDenied"] (fun _ => none)).result =
      some (.multi [.buildErr "error parsing ARN (bad)"]) ∧
    (sweepAccessPoints "us-east-1" (.ok ⟨"123456789012"⟩)
        [.ok ["bad"], .fetchErr .skip "AccessDenied"] (fun _ => none)).result ≠
      none := by
  have h1 : (sweepAccessPoints "us-east-1" (.ok ⟨"123456789012"⟩)
      [.ok ["bad"], .fetchErr .skip "AccessDenied"] (fun _ => none)).result =
      some (.multi [.buildErr "error parsing ARN (bad)"]) := rfl
  exact ⟨h1, by rw [h1]; exact Option.some_ne_none _⟩

/-- C3 (amended): a skip-classified page-fetch error ends the
discovery run with the `ErrorOrNil` of the errors already accumulated
— success exactly when none were, hence always success for the
storage-lens function, which accumulates none — and contributes no
failure of its own to the aggregate, while a fatal page-fetch error
makes the run return the original message wrapped with the resource
kind and region.  Stated for both cited discovery functions,
`sweepAccessPoints` and (on regions that reach its page loop)
`sweepStorageLensConfigurations`. -/
theorem sweepListingError_classification
    (region : String) (c : Client) (delete : DeleteBehavior)
    (okPages : List (List String)) (msg : String)
    (rest : List (PageResult String)) :
    (sweepAccessPoints region (.ok c)
        (okPages.map PageResult.ok ++ PageResult.fetchErr .skip msg :: rest)
        delete).result =
      errorOrNil (processItems accessPointBuild okPages.flatten ([], [])).2 ∧
    (sweepAccessPoints region (.ok c)
        (okPages.map PageResult.ok ++ PageResult.fetchErr .fatal msg :: rest)
        delete).result =
      some (.listErr "S3 Access Points" region msg) ∧
    (¬(region = USGovEast1RegionID ∨ region = USGovWest1RegionID) →
      (sweepStorageLensConfigurations region (.ok c)
          (okPages.map PageResult.ok ++ PageResult.fetchErr .skip msg :: rest)
          delete).result = none) ∧
    (¬(region = USGovEast1RegionID ∨ region = USGovWest1RegionID) →
      (sweepStorageLensConfigurations region (.ok c)
          (okPages.map PageResult.ok ++ PageResult.fetchErr .fatal msg :: rest)
          delete).result =
        some (.listErr "S3 Storage Lens Configurations" region msg)) := by
  have hpre := pageLoop_ok_pages accessPointBuild
    (fun m => GoErr.listErr "S3 Access Points" region m) okPages [] []
  have hpreSL := pageLoop_ok_pages (storageLensConfigurationBuild c.accountID)
    (fun m => GoErr.listErr "S3 Storage Lens Configurations" region m) okPages [] []
  refine ⟨?_, ?_, ?_, ?_⟩
  · have hfull := pageLoop_append_completed accessPointBuild
      (fun m => GoErr.listErr "S3 Access Points" region m)
      (okPages.map PageResult.ok) (PageResult.fetchErr .skip msg :: rest) [] []
      okPages.length _ _ hpre
    simp [sweepAccessPoints, hfull, pageLoop]
  · have hfull := pageLoop_append_completed accessPointBuild
      (fun m => GoErr.listErr "S3 Access Points" region m)
      (okPages.map PageResult.ok) (PageResult.fetchErr .fatal msg :: rest) [] []
      okPages.length _ _ hpre
    simp [sweepAccessPoints, hfull, pageLoop]
  · intro hreg
    have hfull := pageLoop_append_completed (storageLensConfigurationBuild c.accountID)
      (fun m => GoErr.listErr "S3 Storage Lens Configurations" region m)
      (okPages.map PageResult.ok) (PageResult.fetchErr .skip msg :: rest) [] []
      okPages.length _ _ hpreSL
    simp [sweepStorageLensConfigurations, hreg, hfull, pageLoop]
  · intro hreg
    have hfull := pageLoop_append_completed (storageLensConfigurationBuild c.accountID)
      (fun m => GoErr.listErr "S3 Storage Lens Configurations" region m)
      (okPages.map PageResult.ok) (PageResult.fetchErr .fatal msg :: rest) [] []
      okPages.length _ _ hpreSL
    simp [sweepStorageLensConfigurations, hreg, hfull, pageLoop]

/-- C8: the registry entry for `aws_s3_access_point` declares exactly
the one dependency `aws_s3control_object_lambda_access_point`, and in
every schedule of the registry that respects declared dependencies the
object-lambda sweeper's position strictly precedes the access-point
sweeper's, so its discovery-and-sweep completes first. -/
theorem accessPointSweeper_dependency_ordering :
    ((s3controlSweepers.find? (fun s => s.name == "aws_s3_access_point")).map
      Sweeper.dependencies = some ["aws_s3control_object_lambda_access_point"]) ∧
    (∀ (order : List String) (i j : Nat),
      respectsDependencies s3controlSweepers order = true →
      order.indexOf? "aws_s3control_object_lambda_access_point" = some i →
      order.indexOf? "aws_s3_access_point" = some j →
      i < j) := by
  constructor
  · rfl
  · intro order i j hresp hi hj
    simp only [respectsDependencies, s3controlSweepers, List.all_cons,
      List.all_nil, Bool.and_true, Bool.and_eq_true] at hresp
    rw [hi, hj] at hresp
    exact of_decide_eq_true hresp

/-- Witness for C8: the two-element schedule running the object-lambda
sweeper first respects the dependencies, and the ordering theorem
yields its position strictly before the access-point sweeper's. -/
theorem accessPointSweeper_dependency_ordering_witness : (0 : Nat) < 1 :=
  accessPointSweeper_dependency_ordering.2
    ["aws_s3control_object_lambda_access_point", "aws_s3_access_point"] 0 1
    (by decide) (by rfl) (by rfl)

/-- Witness for C2: a two-element batch whose first deletion fails is
still attempted in full and yields exactly one aggregated failure. -/
theorem sweepOrchestrator_attempts_all_and_aggregates_witness :
    (SweepOrchestratorRun (fun s => if s.id = "a" then some "boom" else none)
      [⟨"k", "a"⟩, ⟨"k", "b"⟩]).1 = [⟨"k", "a"⟩, ⟨"k", "b"⟩] ∧
    (SweepOrchestratorRun (fun s => if s.id = "a" then some "boom" else none)
      [⟨"k", "a"⟩, ⟨"k", "b"⟩]).2.length =
      ([(⟨"k", "a"⟩ : Sweepable), ⟨"k", "b"⟩].filter
        (fun s => ((if s.id = "a" then some "boom" else none) : Option String).isSome)).length :=
  ⟨(sweepOrchestrator_attempts_all_and_aggregates
      (fun s => if s.id = "a" then some "boom" else none) [⟨"k", "a"⟩, ⟨"k", "b"⟩]).1,
   (sweepOrchestrator_attempts_all_and_aggregates
      (fun s => if s.id = "a" then some "boom" else none) [⟨"k", "a"⟩, ⟨"k", "b"⟩]).2.2.1⟩

/-- Witness for C3's amended statement: one ok page with a malformed
item followed by a classified fetch error, in both classifications and
for both discovery functions, at a region that reaches the
storage-lens page loop. -/
theorem sweepListingError_classification_witness :
    (sweepAccessPoints "us-east-1" (.ok ⟨"123456789012"⟩)
        ([["bad"]].map PageResult.ok ++ PageResult.fetchErr .skip "AccessDenied" :: [])
        (fun _ => none)).result =
      errorOrNil (processItems accessPointBuild [["bad"]].flatten ([], [])).2 ∧
    (sweepAccessPoints "us-east-1" (.ok ⟨"123456789012"⟩)
        ([["bad"]].map PageResult.ok ++ PageResult.fetchErr .fatal "AccessDenied" :: [])
        (fun _ => none)).result =
      some (.listErr "S3 Access Points" "us-east-1" "AccessDenied") ∧
    (sweepStorageLensConfigurations "us-east-1" (.ok ⟨"123456789012"⟩)
        ([["bad"]].map PageResult.ok ++ PageResult.fetchErr .skip "AccessDenied" :: [])
        (fun _ => none)).result = none ∧
    (sweepStorageLensConfigurations "us-east-1" (.ok ⟨"123456789012"⟩)
        ([["bad"]].map PageResult.ok ++ PageResult.fetchErr .fatal "AccessDenied" :: [])
        (fun _ => none)).result =
      some (.listErr "S3 Storage Lens Configurations" "us-east-1" "AccessDenied") :=
  have h := sweepListingError_classification "us-east-1" ⟨"123456789012"⟩
    (fun _ => none) [["bad"]] "AccessDenied" []
  ⟨h.1, h.2.1, h.2.2.1 (by decide), h.2.2.2 (by decide)⟩

/-- Witness for C10: a concrete page of two multi-region access point
names builds exactly one Sweepable per item and records no error. -/
theorem totalBuilders_one_sweepable_no_build_errors_witness :
    processItems (multiRegionAccessPointBuild "123456789012") ["m1", "m2"] ([], []) =
      (([] : List Sweepable) ++ ["m1", "m2"].map (fun v =>
        ⟨"aws_s3control_multi_region_access_point",
         MultiRegionAccessPointCreateResourceID "123456789012" v⟩),
       ([] : List GoErr)) :=
  (totalBuilders_one_sweepable_no_build_errors "123456789012").1 ["m1", "m2"] ([], [])
